import Mathlib

/-!
Verification of the kimi-monitor core: reset detection, notification
dispatch, scheduling arithmetic and state loading, embedded from
`state_manager.py` and `monitor.py`.  Percent and hour values are Python
floats in the source; they are modelled as exact rationals (`ℚ`), which is
faithful for the comparison logic verified here.
-/

/-- Embeds the dataclass `MonitorState` of `state_manager.py` (all fields
with their Python defaults: zeros, `False`, `None`). -/
@[ext]
structure MonitorState where
  weekly_was_full : Bool := false
  weekly_last_percent : ℚ := 0
  weekly_last_reset_hours : ℚ := 0
  rate_was_full : Bool := false
  rate_last_percent : ℚ := 0
  rate_last_last_reset_hours : ℚ := 0
  last_check_time : Option String := none
  weekly_reset_notified : Bool := false
  rate_reset_notified : Bool := false
  deriving Repr, DecidableEq

/-- The default all-zero/false `MonitorState()` a fresh monitor holds. -/
def MonitorState.default : MonitorState := {}

/-- The `is_reset` computation of `StateManager.update_and_check_weekly`
(lines 67-85 of `state_manager.py`): the elif chain over the pre-update
state captured in `was_full`, `last_percent`, `last_reset_hours`. -/
def weekly_is_reset (s : MonitorState) (current_percent reset_hours : ℚ) : Bool :=
  if s.weekly_was_full = true ∧ current_percent < 20 then true
  else if s.weekly_last_reset_hours < 1 ∧ reset_hours > 160 then true
  else if s.weekly_last_percent > 90 ∧ current_percent < s.weekly_last_percent - 50 then true
  else false

/-- The `is_reset` computation of `StateManager.update_and_check_rate`
(lines 104-120 of `state_manager.py`). -/
def rate_is_reset (s : MonitorState) (current_percent reset_hours : ℚ) : Bool :=
  if s.rate_was_full = true ∧ current_percent < 20 then true
  else if s.rate_last_last_reset_hours < mkRat 1 2 ∧ reset_hours > 2 then true
  else if s.rate_last_percent > 80 ∧ current_percent < s.rate_last_percent - 40 then true
  else false

/-- Embeds `StateManager.update_and_check_weekly` (state_manager.py
lines 61-96): computes `is_reset` on the pre-update state, overwrites the
weekly observation fields and `last_check_time` (the wall-clock
`datetime.now().isoformat()` string is passed in as `now`), clears
`weekly_reset_notified` when a reset was detected, and returns the
mutated state together with `is_reset and not weekly_reset_notified`. -/
def update_and_check_weekly (now : String) (current_percent reset_hours : ℚ)
    (s : MonitorState) : MonitorState × Bool :=
  let is_reset := weekly_is_reset s current_percent reset_hours
  let s1 : MonitorState :=
    { s with
      weekly_last_percent := current_percent
      weekly_last_reset_hours := reset_hours
      weekly_was_full := decide (current_percent > 80)
      last_check_time := some now }
  let s2 := if is_reset then { s1 with weekly_reset_notified := false } else s1
  (s2, is_reset && !s2.weekly_reset_notified)

/-- Embeds `StateManager.update_and_check_rate` (state_manager.py
lines 98-131), the burst/rate analogue of the weekly update. -/
def update_and_check_rate (now : String) (current_percent reset_hours : ℚ)
    (s : MonitorState) : MonitorState × Bool :=
  let is_reset := rate_is_reset s current_percent reset_hours
  let s1 : MonitorState :=
    { s with
      rate_last_percent := current_percent
      rate_last_last_reset_hours := reset_hours
      rate_was_full := decide (current_percent > 70)
      last_check_time := some now }
  let s2 := if is_reset then { s1 with rate_reset_notified := false } else s1
  (s2, is_reset && !s2.rate_reset_notified)

/-- Embeds `StateManager.mark_notified` (state_manager.py lines 133-139);
the trailing `save_state()` is a durability side effect outside the state
transition. -/
def mark_notified (weekly rate : Bool) (s : MonitorState) : MonitorState :=
  let s1 := if weekly then { s with weekly_reset_notified := true } else s
  if rate then { s1 with rate_reset_notified := true } else s1

/-- Embeds the usage-snapshot fields of the dataclass `UsageInfo` in
`kimi_client.py` that the monitor consumes (`raw_data` is transport
metadata and not part of the core). -/
structure UsageInfo where
  weekly_usage_percent : ℚ
  weekly_reset_hours : ℚ
  rate_limit_percent : ℚ
  rate_limit_reset_hours : ℚ
  deriving Repr, DecidableEq

/-- The notifier collaborator, reduced to the success/failure each of its
delivery calls would return during one poll (`send_both_reset_notification`
and the two `send_quota_reset_notification` calls in `monitor.py`). -/
structure NotifierBehavior where
  sendBoth : Bool
  sendWeekly : Bool
  sendRate : Bool
  deriving Repr, DecidableEq

/-- Which notification requests `check_and_notify` issued during one poll. -/
structure NotifyLog where
  bothRequested : Bool
  weeklyRequested : Bool
  rateRequested : Bool
  deriving Repr, DecidableEq

/-- The notification-dispatch half of `check_and_notify` (`monitor.py`
lines 142-166), abstracted over the two detector results `weekly_reset`
and `rate_reset` and the post-detection state `s2`: either one combined
notification when both fired, or up to two single-kind notifications;
`mark_notified` runs only on delivery success.  Returns the post-dispatch
state and the log of requests issued. -/
def dispatch (nt : NotifierBehavior) (weekly_reset rate_reset : Bool)
    (s2 : MonitorState) : MonitorState × NotifyLog :=
  if weekly_reset && rate_reset then
    (if nt.sendBoth then mark_notified true true s2 else s2, ⟨true, false, false⟩)
  else
    let s3 := if weekly_reset then
        (if nt.sendWeekly then mark_notified true false s2 else s2) else s2
    let s4 := if rate_reset then
        (if nt.sendRate then mark_notified false true s3 else s3) else s3
    (s4, ⟨false, weekly_reset, rate_reset⟩)

/-- Embeds the detection-and-dispatch body of `check_and_notify`
(`monitor.py` lines 131-169): both detector updates in order (weekly first,
then rate on the already-updated state), then notification dispatch. -/
def check_and_notify (nt : NotifierBehavior) (now : String) (u : UsageInfo)
    (s : MonitorState) : MonitorState × NotifyLog :=
  let wres := update_and_check_weekly now u.weekly_usage_percent u.weekly_reset_hours s
  let rres := update_and_check_rate now u.rate_limit_percent u.rate_limit_reset_hours wres.1
  dispatch nt wres.2 rres.2 rres.1

/-- The state after both detector updates of one poll, before dispatch. -/
def poll_mid_state (now : String) (u : UsageInfo) (s : MonitorState) : MonitorState :=
  (update_and_check_rate now u.rate_limit_percent u.rate_limit_reset_hours
    (update_and_check_weekly now u.weekly_usage_percent u.weekly_reset_hours s).1).1

/-- The weekly detector's notify decision during one poll. -/
def poll_weekly_fired (now : String) (u : UsageInfo) (s : MonitorState) : Bool :=
  (update_and_check_weekly now u.weekly_usage_percent u.weekly_reset_hours s).2

/-- The rate detector's notify decision during one poll (evaluated on the
state the weekly update already produced, as in the source). -/
def poll_rate_fired (now : String) (u : UsageInfo) (s : MonitorState) : Bool :=
  (update_and_check_rate now u.rate_limit_percent u.rate_limit_reset_hours
    (update_and_check_weekly now u.weekly_usage_percent u.weekly_reset_hours s).1).2

/-- Embeds `calculate_next_check_time` (`monitor.py` lines 88-106).  Times
are modelled as rational minutes; `now + timedelta(hours=h)` becomes
`now + 60 * h` and the five-minute margin is `+ 5`. -/
def calculate_next_check_time (now : ℚ) (u : UsageInfo) : ℚ :=
  let weekly_reset_time := now + 60 * u.weekly_reset_hours
  let rate_reset_time := now + 60 * u.rate_limit_reset_hours
  let weekly_check := weekly_reset_time + 5
  let rate_check := rate_reset_time + 5
  if weekly_check < rate_check then weekly_check else rate_check

/-- Embeds the clamp in `run_monitor` (`monitor.py` lines 223-229): when
the wait until `next_check` exceeds `CHECK_INTERVAL_MINUTES`, the next
poll is rescheduled to `now + CHECK_INTERVAL_MINUTES`.  All quantities in
minutes (the source converts both sides to seconds, which scales the
comparison by 60 and changes nothing). -/
def clamp_next_check_time (now interval_minutes next_check : ℚ) : ℚ :=
  if next_check - now > interval_minutes then now + interval_minutes else next_check

/-- A JSON value, as `json.load` can produce it. -/
inductive Json where
  | null
  | bool (b : Bool)
  | num (q : ℚ)
  | str (s : String)
  | arr (elems : List Json)
  | obj (fields : List (String × Json))
  deriving Repr

/-- The keyword arguments `MonitorState(**data)` accepts. -/
def monitorStateFieldNames : List String :=
  ["weekly_was_full", "weekly_last_percent", "weekly_last_reset_hours",
   "rate_was_full", "rate_last_percent", "rate_last_last_reset_hours",
   "last_check_time", "weekly_reset_notified", "rate_reset_notified"]

/-- One keyword argument applied to a `MonitorState` under construction.
The Python dataclass stores whatever value arrives without type checking;
a value of unexpected JSON type is kept as the field's default here, which
leaves the success/failure behaviour of `MonitorState(**data)` — the part
claims depend on — intact. -/
def applyStateField (s : MonitorState) : String × Json → MonitorState
  | ("weekly_was_full", .bool b) => { s with weekly_was_full := b }
  | ("weekly_last_percent", .num q) => { s with weekly_last_percent := q }
  | ("weekly_last_reset_hours", .num q) => { s with weekly_last_reset_hours := q }
  | ("rate_was_full", .bool b) => { s with rate_was_full := b }
  | ("rate_last_percent", .num q) => { s with rate_last_percent := q }
  | ("rate_last_last_reset_hours", .num q) => { s with rate_last_last_reset_hours := q }
  | ("last_check_time", .str t) => { s with last_check_time := some t }
  | ("last_check_time", .null) => { s with last_check_time := none }
  | ("weekly_reset_notified", .bool b) => { s with weekly_reset_notified := b }
  | ("rate_reset_notified", .bool b) => { s with rate_reset_notified := b }
  | _ => s

/-- Embeds `MonitorState(**data)`: raises (here `Except.error`) unless
`data` is a mapping whose keys are all `MonitorState` field names (every
field has a default, so no key is required). -/
def monitorStateOfJson : Json → Except String MonitorState
  | .obj fields =>
      if fields.all fun kv => monitorStateFieldNames.contains kv.1 then
        .ok (fields.foldl applyStateField MonitorState.default)
      else .error "unexpected keyword argument"
  | _ => .error "argument of type is not a mapping"

/-- What reading the state file can yield: no file
(`os.path.exists` false), an I/O error while opening/reading, a
`json.load` parse error, or a parsed JSON value. -/
inductive StateFileRead where
  | missing
  | readError
  | jsonError
  | content (j : Json)
  deriving Repr

/-- Embeds `StateManager._load_state` (`state_manager.py` lines 41-50):
every exception along the read/parse/construct path is caught and the
default `MonitorState()` returned. -/
def load_state : StateFileRead → MonitorState
  | .missing => MonitorState.default
  | .readError => MonitorState.default
  | .jsonError => MonitorState.default
  | .content j =>
      match monitorStateOfJson j with
      | .ok s => s
      | .error _ => MonitorState.default

/-- The always-succeeding notifier used by the end-to-end scenario. -/
def alwaysOkNotifier : NotifierBehavior := ⟨true, true, true⟩

/-- Runs `check_and_notify` with the always-succeeding notifier over a
list of snapshots, one poll per snapshot, returning the final state and
the per-poll notification logs in order. -/
def pollSeq : List UsageInfo → MonitorState → MonitorState × List NotifyLog
  | [], s => (s, [])
  | u :: rest, s =>
      let r := check_and_notify alwaysOkNotifier "t" u s
      let tail := pollSeq rest r.1
      (tail.1, r.2 :: tail.2)

/-- Snapshot (weekly 84% used, 166 h; burst 66% used, 3 h). -/
def snapA : UsageInfo := ⟨84, 166, 66, 3⟩

/-- Snapshot (weekly 5% used, 0.05 h; burst 5% used, 0.05 h). -/
def snapB : UsageInfo := ⟨5, mkRat 1 20, 5, mkRat 1 20⟩

/-- Snapshot (weekly 100% used, 168 h; burst 100% used, 5 h). -/
def snapC : UsageInfo := ⟨100, 168, 100, 5⟩

/-- `n` repeated weekly detector calls with the same sample `(p, r)`. -/
def iterate_weekly (now : String) (p r : ℚ) : ℕ → MonitorState → MonitorState
  | 0, s => s
  | n + 1, s => iterate_weekly now p r n (update_and_check_weekly now p r s).1

/-- `n` repeated rate detector calls with the same sample `(p, r)`. -/
def iterate_rate (now : String) (p r : ℚ) : ℕ → MonitorState → MonitorState
  | 0, s => s
  | n + 1, s => iterate_rate now p r n (update_and_check_rate now p r s).1

/-! ## Helper lemmas -/

lemma weekly_fst_eq (now : String) (p r : ℚ) (s : MonitorState) :
    (update_and_check_weekly now p r s).1 =
      { s with
        weekly_last_percent := p
        weekly_last_reset_hours := r
        weekly_was_full := decide (p > 80)
        last_check_time := some now
        weekly_reset_notified :=
          if weekly_is_reset s p r then false else s.weekly_reset_notified } := by
  unfold update_and_check_weekly
  cases h : weekly_is_reset s p r <;> simp [h]

lemma rate_fst_eq (now : String) (p r : ℚ) (s : MonitorState) :
    (update_and_check_rate now p r s).1 =
      { s with
        rate_last_percent := p
        rate_last_last_reset_hours := r
        rate_was_full := decide (p > 70)
        last_check_time := some now
        rate_reset_notified :=
          if rate_is_reset s p r then false else s.rate_reset_notified } := by
  unfold update_and_check_rate
  cases h : rate_is_reset s p r <;> simp [h]

lemma weekly_snd_eq (now : String) (p r : ℚ) (s : MonitorState) :
    (update_and_check_weekly now p r s).2 = weekly_is_reset s p r := by
  unfold update_and_check_weekly
  cases h : weekly_is_reset s p r <;> simp [h]

lemma rate_snd_eq (now : String) (p r : ℚ) (s : MonitorState) :
    (update_and_check_rate now p r s).2 = rate_is_reset s p r := by
  unfold update_and_check_rate
  cases h : rate_is_reset s p r <;> simp [h]

lemma weekly_stable_step (now : String) (p r : ℚ) (s : MonitorState)
    (hwf : s.weekly_was_full = decide (s.weekly_last_percent > 80))
    (hp : p = s.weekly_last_percent) (hr : r = s.weekly_last_reset_hours) :
    update_and_check_weekly now p r s =
      ({ s with last_check_time := some now }, false) := by
  subst hp hr
  have h : weekly_is_reset s s.weekly_last_percent s.weekly_last_reset_hours = false := by
    unfold weekly_is_reset
    split_ifs with h1 h2 h3
    · exfalso
      have h80 : s.weekly_last_percent > 80 := of_decide_eq_true (hwf ▸ h1.1)
      linarith [h1.2]
    · exfalso; linarith [h2.1, h2.2]
    · exfalso; linarith [h3.1, h3.2]
    · rfl
  have hfst := weekly_fst_eq now s.weekly_last_percent s.weekly_last_reset_hours s
  have hsnd := weekly_snd_eq now s.weekly_last_percent s.weekly_last_reset_hours s
  simp only [h, Bool.false_eq_true, if_false] at hfst hsnd
  refine Prod.ext ?_ ?_
  · rw [hfst, ← hwf]
  · exact hsnd

lemma rate_stable_step (now : String) (p r : ℚ) (s : MonitorState)
    (hwf : s.rate_was_full = decide (s.rate_last_percent > 70))
    (hp : p = s.rate_last_percent) (hr : r = s.rate_last_last_reset_hours) :
    update_and_check_rate now p r s =
      ({ s with last_check_time := some now }, false) := by
  subst hp hr
  have h : rate_is_reset s s.rate_last_percent s.rate_last_last_reset_hours = false := by
    unfold rate_is_reset
    split_ifs with h1 h2 h3
    · exfalso
      have h70 : s.rate_last_percent > 70 := of_decide_eq_true (hwf ▸ h1.1)
      linarith [h1.2]
    · exfalso
      have hhalf : (mkRat 1 2 : ℚ) < 2 := by
        rw [Rat.mkRat_eq_div]; norm_num
      linarith [h2.1, h2.2]
    · exfalso; linarith [h3.1, h3.2]
    · rfl
  have hfst := rate_fst_eq now s.rate_last_percent s.rate_last_last_reset_hours s
  have hsnd := rate_snd_eq now s.rate_last_percent s.rate_last_last_reset_hours s
  simp only [h, Bool.false_eq_true, if_false] at hfst hsnd
  refine Prod.ext ?_ ?_
  · rw [hfst, ← hwf]
  · exact hsnd

lemma weekly_stable_fixed (now : String) (p r : ℚ) (s : MonitorState)
    (hwf : s.weekly_was_full = decide (s.weekly_last_percent > 80))
    (hp : p = s.weekly_last_percent) (hr : r = s.weekly_last_reset_hours) :
    update_and_check_weekly now p r { s with last_check_time := some now } =
      ({ s with last_check_time := some now }, false) := by
  cases s
  exact weekly_stable_step now p r _ hwf hp hr

lemma rate_stable_fixed (now : String) (p r : ℚ) (s : MonitorState)
    (hwf : s.rate_was_full = decide (s.rate_last_percent > 70))
    (hp : p = s.rate_last_percent) (hr : r = s.rate_last_last_reset_hours) :
    update_and_check_rate now p r { s with last_check_time := some now } =
      ({ s with last_check_time := some now }, false) := by
  cases s
  exact rate_stable_step now p r _ hwf hp hr

lemma weekly_iterate_fixed (now : String) (p r : ℚ) (s : MonitorState)
    (hwf : s.weekly_was_full = decide (s.weekly_last_percent > 80))
    (hp : p = s.weekly_last_percent) (hr : r = s.weekly_last_reset_hours) :
    ∀ n, iterate_weekly now p r n { s with last_check_time := some now } =
      { s with last_check_time := some now } := by
  intro n
  induction n with
  | zero => rfl
  | succ k ih =>
      show iterate_weekly now p r k
        (update_and_check_weekly now p r { s with last_check_time := some now }).1 = _
      rw [weekly_stable_fixed now p r s hwf hp hr]
      exact ih

lemma rate_iterate_fixed (now : String) (p r : ℚ) (s : MonitorState)
    (hwf : s.rate_was_full = decide (s.rate_last_percent > 70))
    (hp : p = s.rate_last_percent) (hr : r = s.rate_last_last_reset_hours) :
    ∀ n, iterate_rate now p r n { s with last_check_time := some now } =
      { s with last_check_time := some now } := by
  intro n
  induction n with
  | zero => rfl
  | succ k ih =>
      show iterate_rate now p r k
        (update_and_check_rate now p r { s with last_check_time := some now }).1 = _
      rw [rate_stable_fixed now p r s hwf hp hr]
      exact ih

/-! ## Claims -/

/-- C1: the weekly detector reports a reset exactly when
`(wasFull ∧ p < 20) ∨ (lastResetHours < 1 ∧ r > 160) ∨
 (lastPercent > 90 ∧ p < lastPercent - 50)`, and the rate detector exactly
when `(wasFull ∧ p < 20) ∨ (lastResetHours < 0.5 ∧ r > 2) ∨
 (lastPercent > 80 ∧ p < lastPercent - 40)`, each condition evaluated on
the pre-update state. -/
theorem reset_detection_conditions (now : String) (p r : ℚ) (s : MonitorState) :
    (weekly_is_reset s p r = true ↔
      (s.weekly_was_full = true ∧ p < 20) ∨
      (s.weekly_last_reset_hours < 1 ∧ r > 160) ∨
      (s.weekly_last_percent > 90 ∧ p < s.weekly_last_percent - 50)) ∧
    ((update_and_check_weekly now p r s).2 = true ↔
      (s.weekly_was_full = true ∧ p < 20) ∨
      (s.weekly_last_reset_hours < 1 ∧ r > 160) ∨
      (s.weekly_last_percent > 90 ∧ p < s.weekly_last_percent - 50)) ∧
    (rate_is_reset s p r = true ↔
      (s.rate_was_full = true ∧ p < 20) ∨
      (s.rate_last_last_reset_hours < mkRat 1 2 ∧ r > 2) ∨
      (s.rate_last_percent > 80 ∧ p < s.rate_last_percent - 40)) ∧
    ((update_and_check_rate now p r s).2 = true ↔
      (s.rate_was_full = true ∧ p < 20) ∨
      (s.rate_last_last_reset_hours < mkRat 1 2 ∧ r > 2) ∨
      (s.rate_last_percent > 80 ∧ p < s.rate_last_percent - 40)) := by
  have hw : weekly_is_reset s p r = true ↔
      (s.weekly_was_full = true ∧ p < 20) ∨
      (s.weekly_last_reset_hours < 1 ∧ r > 160) ∨
      (s.weekly_last_percent > 90 ∧ p < s.weekly_last_percent - 50) := by
    unfold weekly_is_reset
    split_ifs with h1 h2 h3 <;> simp_all
  have hr : rate_is_reset s p r = true ↔
      (s.rate_was_full = true ∧ p < 20) ∨
      (s.rate_last_last_reset_hours < mkRat 1 2 ∧ r > 2) ∨
      (s.rate_last_percent > 80 ∧ p < s.rate_last_percent - 40) := by
    unfold rate_is_reset
    split_ifs with h1 h2 h3 <;> simp_all
  exact ⟨hw, by rw [weekly_snd_eq]; exact hw, hr, by rw [rate_snd_eq]; exact hr⟩

/-- C4: on a detected reset the notified flag is cleared before the notify
decision, so the boolean each detector returns equals `is_reset`,
whatever `resetNotified` held before the call. -/
theorem clear_then_check (now : String) (p r : ℚ) (s : MonitorState) :
    (update_and_check_weekly now p r s).1.weekly_reset_notified =
      (if weekly_is_reset s p r then false else s.weekly_reset_notified) ∧
    (update_and_check_weekly now p r s).2 = weekly_is_reset s p r ∧
    (update_and_check_rate now p r s).1.rate_reset_notified =
      (if rate_is_reset s p r then false else s.rate_reset_notified) ∧
    (update_and_check_rate now p r s).2 = rate_is_reset s p r := by
  refine ⟨?_, weekly_snd_eq now p r s, ?_, rate_snd_eq now p r s⟩
  · rw [weekly_fst_eq]
  · rw [rate_fst_eq]

/-- C5: after every detector call the post-state stores the new sample and
the recomputed full flag: `lastPercent = p`, `lastResetHours = r`,
`wasFull = (p > fullThreshold)` with threshold 80 for weekly and 70 for
rate, whether or not a reset was detected. -/
theorem post_state_observation_fields (now : String) (p r : ℚ) (s : MonitorState) :
    (update_and_check_weekly now p r s).1.weekly_last_percent = p ∧
    (update_and_check_weekly now p r s).1.weekly_last_reset_hours = r ∧
    (update_and_check_weekly now p r s).1.weekly_was_full = decide (p > 80) ∧
    (update_and_check_rate now p r s).1.rate_last_percent = p ∧
    (update_and_check_rate now p r s).1.rate_last_last_reset_hours = r ∧
    (update_and_check_rate now p r s).1.rate_was_full = decide (p > 70) := by
  rw [weekly_fst_eq, rate_fst_eq]
  exact ⟨rfl, rfl, rfl, rfl, rfl, rfl⟩

/-- C10 (frame): the weekly detector call leaves every `rate_*` field
unchanged, and the rate detector call leaves every `weekly_*` field
unchanged — the two quota kinds' updates never interfere. -/
theorem detector_frame (now : String) (p r : ℚ) (s : MonitorState) :
    (update_and_check_weekly now p r s).1.rate_was_full = s.rate_was_full ∧
    (update_and_check_weekly now p r s).1.rate_last_percent = s.rate_last_percent ∧
    (update_and_check_weekly now p r s).1.rate_last_last_reset_hours =
      s.rate_last_last_reset_hours ∧
    (update_and_check_weekly now p r s).1.rate_reset_notified = s.rate_reset_notified ∧
    (update_and_check_rate now p r s).1.weekly_was_full = s.weekly_was_full ∧
    (update_and_check_rate now p r s).1.weekly_last_percent = s.weekly_last_percent ∧
    (update_and_check_rate now p r s).1.weekly_last_reset_hours =
      s.weekly_last_reset_hours ∧
    (update_and_check_rate now p r s).1.weekly_reset_notified =
      s.weekly_reset_notified := by
  rw [weekly_fst_eq, rate_fst_eq]
  exact ⟨rfl, rfl, rfl, rfl, rfl, rfl, rfl, rfl⟩

/-- C2 (counterexample): on the default all-zero state — which has
`wasFull = false` and `lastPercent = 0` — the weekly detector does report
a reset for the sample `(percent 0, resetHours 166)` with both sample
values nonnegative, because the countdown-wrap rule compares the *prior*
`lastResetHours = 0 < 1` against the new `resetHours = 166 > 160`;
likewise the rate detector for `(0, 3)`.  This refutes the claim that a
cold start can never detect a reset. -/
theorem cold_start_counterexample :
    MonitorState.default.weekly_was_full = false ∧
    MonitorState.default.weekly_last_percent = 0 ∧
    (0 : ℚ) ≤ 0 ∧ (0 : ℚ) ≤ 166 ∧
    weekly_is_reset MonitorState.default 0 166 = true ∧
    (update_and_check_weekly "t" 0 166 MonitorState.default).2 = true ∧
    rate_is_reset MonitorState.default 0 3 = true ∧
    (update_and_check_rate "t" 0 3 MonitorState.default).2 = true := by
  decide

/-- C2 (amended): with `wasFull = false` and `lastPercent = 0`, the
detectors report no reset for any sample with `p ≥ 0` and
`0 ≤ r ≤ postResetHoursFloor` (160 for weekly, 2 for rate); the extra
bound on `r` is forced because the countdown-wrap rule needs no prior
high percent and fires on the default state whenever `r` exceeds the
floor. -/
theorem cold_start_no_reset (now : String) (p r : ℚ) (s : MonitorState) :
    (s.weekly_was_full = false → s.weekly_last_percent = 0 →
      0 ≤ p → 0 ≤ r → r ≤ 160 →
      weekly_is_reset s p r = false ∧
      (update_and_check_weekly now p r s).2 = false) ∧
    (s.rate_was_full = false → s.rate_last_percent = 0 →
      0 ≤ p → 0 ≤ r → r ≤ 2 →
      rate_is_reset s p r = false ∧
      (update_and_check_rate now p r s).2 = false) := by
  constructor
  · intro hwf hlp hp hr0 hr
    have h : weekly_is_reset s p r = false := by
      unfold weekly_is_reset
      split_ifs with h1 h2 h3
      · rw [hwf] at h1; exact absurd h1.1 (by simp)
      · exact absurd h2.2 (by linarith)
      · rw [hlp] at h3; exact absurd h3.1 (by norm_num)
      · rfl
    exact ⟨h, by rw [weekly_snd_eq, h]⟩
  · intro hwf hlp hp hr0 hr
    have h : rate_is_reset s p r = false := by
      unfold rate_is_reset
      split_ifs with h1 h2 h3
      · rw [hwf] at h1; exact absurd h1.1 (by simp)
      · exact absurd h2.2 (by linarith)
      · rw [hlp] at h3; exact absurd h3.1 (by norm_num)
      · rfl
    exact ⟨h, by rw [rate_snd_eq, h]⟩

/-- Witness for the amended C2: concrete instantiation at the default
state with sample `(84, 1)`, discharging every hypothesis. -/
theorem cold_start_no_reset_witness :
    (weekly_is_reset MonitorState.default 84 1 = false ∧
      (update_and_check_weekly "t" 84 1 MonitorState.default).2 = false) ∧
    (rate_is_reset MonitorState.default 84 1 = false ∧
      (update_and_check_rate "t" 84 1 MonitorState.default).2 = false) :=
  ⟨(cold_start_no_reset "t" 84 1 MonitorState.default).1 rfl rfl
      (by norm_num) (by norm_num) (by norm_num),
   (cold_start_no_reset "t" 84 1 MonitorState.default).2 rfl rfl
      (by norm_num) (by norm_num) (by norm_num)⟩

/-- C6: `calculate_next_check_time` returns
`now + min(weeklyResetHours, rateResetHours) hours + 5 minutes`, computed
from the snapshot it is given; for `weeklyResetHours = 2,
burstResetHours = 0.1` that is exactly `now + 11` minutes; and the run
loop clamps the scheduled time to `now + CHECK_INTERVAL_MINUTES` whenever
the computed wait exceeds that maximum. -/
theorem next_check_time_spec (now interval : ℚ) (u : UsageInfo) :
    calculate_next_check_time now u =
      now + 60 * min u.weekly_reset_hours u.rate_limit_reset_hours + 5 ∧
    (u.weekly_reset_hours = 2 → u.rate_limit_reset_hours = mkRat 1 10 →
      calculate_next_check_time now u = now + 11) ∧
    (calculate_next_check_time now u - now > interval →
      clamp_next_check_time now interval (calculate_next_check_time now u) =
        now + interval) := by
  have hmin : calculate_next_check_time now u =
      now + 60 * min u.weekly_reset_hours u.rate_limit_reset_hours + 5 := by
    simp only [calculate_next_check_time]
    rcases le_total u.weekly_reset_hours u.rate_limit_reset_hours with h | h
    · rw [min_eq_left h]
      split_ifs with hc <;> linarith
    · rw [min_eq_right h]
      split_ifs with hc <;> linarith
  refine ⟨hmin, ?_, ?_⟩
  · intro h1 h2
    rw [hmin, h1, h2]
    have : (mkRat 1 10 : ℚ) = 1 / 10 := by
      rw [Rat.mkRat_eq_div]; norm_num
    rw [this]
    rw [min_eq_right (by norm_num)]
    ring
  · intro hgt
    unfold clamp_next_check_time
    rw [if_pos hgt]

/-- Witness for C6: concrete instantiation at `now = 0`,
`interval = 5` and the snapshot `(weekly 2 h, burst 0.1 h)`, discharging
every hypothesis. -/
theorem next_check_time_spec_witness :
    calculate_next_check_time 0 ⟨0, 2, 0, mkRat 1 10⟩ =
      0 + 60 * min (2 : ℚ) (mkRat 1 10) + 5 ∧
    calculate_next_check_time 0 ⟨0, 2, 0, mkRat 1 10⟩ = 0 + 11 ∧
    clamp_next_check_time 0 5 (calculate_next_check_time 0 ⟨0, 2, 0, mkRat 1 10⟩) =
      0 + 5 :=
  ⟨(next_check_time_spec 0 5 ⟨0, 2, 0, mkRat 1 10⟩).1,
   (next_check_time_spec 0 5 ⟨0, 2, 0, mkRat 1 10⟩).2.1 rfl rfl,
   (next_check_time_spec 0 5 ⟨0, 2, 0, mkRat 1 10⟩).2.2 (by
      rw [(next_check_time_spec 0 5 ⟨0, 2, 0, mkRat 1 10⟩).2.1 rfl rfl]
      norm_num)⟩

/-- C3 (counterexample): running the four-poll scenario
`(84%,166h,66%,3h) → (84%,166h,66%,3h) → (5%,0.05h,5%,0.05h) →
(100%,168h,100%,5h)` from the default state with an always-succeeding
notifier requests a notification on the first and third polls as well —
not zero notifications on the first three polls as claimed.  The first
poll even requests a "both reset" notification, because both
countdown-wrap rules fire against the default `lastResetHours = 0`. -/
theorem end_to_end_counterexample :
    ((pollSeq [snapA, snapA, snapB, snapC] MonitorState.default).2.map
      fun l => l.bothRequested || l.weeklyRequested || l.rateRequested) =
      [true, false, true, true] ∧
    ((pollSeq [snapA, snapA, snapB, snapC] MonitorState.default).2.map
      fun l => l.bothRequested) = [true, false, false, true] := by
  decide

/-- C3 (amended): the four-poll scenario produces a "both reset"
notification on the first poll (cold start: both countdown-wrap rules
fire against the default zero state), no notification on the second, a
weekly-only notification on the third (level-crossing: 84% → 5%), and a
"both reset" notification on the fourth — two "both reset" notifications
in total, not exactly one on the fourth poll. -/
theorem end_to_end_amended :
    (pollSeq [snapA, snapA, snapB, snapC] MonitorState.default).2 =
      [⟨true, false, false⟩, ⟨false, false, false⟩, ⟨false, true, false⟩,
       ⟨true, false, false⟩] := by
  decide

/-- C8: once a quota kind's `resetNotified` is true, repeated detector
calls whose sample always equals the stored last observation (a stable
post-reset situation, with the stored `wasFull` coherent with the stored
percent as every detector call leaves it) return `shouldNotify = false`
on every subsequent poll — the same episode is never notified twice. -/
theorem notification_idempotent (now : String) (p r : ℚ) (s : MonitorState) :
    (s.weekly_was_full = decide (s.weekly_last_percent > 80) →
      s.weekly_reset_notified = true →
      p = s.weekly_last_percent → r = s.weekly_last_reset_hours →
      ∀ n : ℕ,
        (update_and_check_weekly now p r (iterate_weekly now p r n s)).2 = false) ∧
    (s.rate_was_full = decide (s.rate_last_percent > 70) →
      s.rate_reset_notified = true →
      p = s.rate_last_percent → r = s.rate_last_last_reset_hours →
      ∀ n : ℕ,
        (update_and_check_rate now p r (iterate_rate now p r n s)).2 = false) := by
  constructor
  · intro hwf _ hp hr n
    cases n with
    | zero =>
        show (update_and_check_weekly now p r s).2 = false
        rw [weekly_stable_step now p r s hwf hp hr]
    | succ k =>
        show (update_and_check_weekly now p r
          (iterate_weekly now p r k (update_and_check_weekly now p r s).1)).2 = false
        rw [weekly_stable_step now p r s hwf hp hr]
        show (update_and_check_weekly now p r
          (iterate_weekly now p r k { s with last_check_time := some now })).2 = false
        rw [weekly_iterate_fixed now p r s hwf hp hr k,
          weekly_stable_fixed now p r s hwf hp hr]
  · intro hwf _ hp hr n
    cases n with
    | zero =>
        show (update_and_check_rate now p r s).2 = false
        rw [rate_stable_step now p r s hwf hp hr]
    | succ k =>
        show (update_and_check_rate now p r
          (iterate_rate now p r k (update_and_check_rate now p r s).1)).2 = false
        rw [rate_stable_step now p r s hwf hp hr]
        show (update_and_check_rate now p r
          (iterate_rate now p r k { s with last_check_time := some now })).2 = false
        rw [rate_iterate_fixed now p r s hwf hp hr k,
          rate_stable_fixed now p r s hwf hp hr]

/-- Witness for C8: a notified post-reset state observed stably at
`(84, 166)`, one iterated call deep, discharging every hypothesis. -/
theorem notification_idempotent_witness :
    (update_and_check_weekly "t" 84 166
      (iterate_weekly "t" 84 166 1
        ⟨true, 84, 166, true, 84, 166, none, true, true⟩)).2 = false ∧
    (update_and_check_rate "t" 84 166
      (iterate_rate "t" 84 166 1
        ⟨true, 84, 166, true, 84, 166, none, true, true⟩)).2 = false :=
  ⟨(notification_idempotent "t" 84 166
      ⟨true, 84, 166, true, 84, 166, none, true, true⟩).1 (by decide) rfl rfl rfl 1,
   (notification_idempotent "t" 84 166
      ⟨true, 84, 166, true, 84, 166, none, true, true⟩).2 (by decide) rfl rfl rfl 1⟩

/-- C9: loading persisted state never fails: every read/parse error path —
missing file, unreadable bytes, invalid JSON, or a JSON value that
`MonitorState(**data)` rejects — yields the default all-zero/false state
instead of a propagated startup failure. -/
theorem load_state_spec (inp : StateFileRead) :
    (inp = .missing ∨ inp = .readError ∨ inp = .jsonError →
      load_state inp = MonitorState.default) ∧
    (∀ j e, inp = .content j → monitorStateOfJson j = .error e →
      load_state inp = MonitorState.default) := by
  constructor
  · rintro (rfl | rfl | rfl) <;> rfl
  · rintro j e rfl he
    simp [load_state, he]

/-- Witness for C9: a JSON parse error and a non-mapping JSON document
both load as the default state. -/
theorem load_state_spec_witness :
    load_state .jsonError = MonitorState.default ∧
    load_state (.content (.num 3)) = MonitorState.default :=
  ⟨(load_state_spec .jsonError).1 (Or.inr (Or.inr rfl)),
   (load_state_spec (.content (.num 3))).2 (.num 3)
      "argument of type is not a mapping" rfl rfl⟩

lemma dispatch_true_true (nt : NotifierBehavior) (s2 : MonitorState) :
    dispatch nt true true s2 =
      (if nt.sendBoth then mark_notified true true s2 else s2,
        ⟨true, false, false⟩) := by
  simp [dispatch]

lemma dispatch_true_false (nt : NotifierBehavior) (s2 : MonitorState) :
    dispatch nt true false s2 =
      (if nt.sendWeekly then mark_notified true false s2 else s2,
        ⟨false, true, false⟩) := by
  simp [dispatch]

lemma dispatch_false_true (nt : NotifierBehavior) (s2 : MonitorState) :
    dispatch nt false true s2 =
      (if nt.sendRate then mark_notified false true s2 else s2,
        ⟨false, false, true⟩) := by
  simp [dispatch]

lemma dispatch_false_false (nt : NotifierBehavior) (s2 : MonitorState) :
    dispatch nt false false s2 = (s2, ⟨false, false, false⟩) := by
  simp [dispatch]

/-- C7: in one poll cycle a kind's `resetNotified` goes from false (the
detector cleared it when the kind fired) to true exactly when a
notification covering it was requested and delivery succeeded: both kinds
firing requests a single combined notification whose success sets both
flags together, exactly one firing requests only that kind's notification
and sets only its flag on success, and a delivery failure leaves the
flag(s) false. -/
theorem dispatch_notified_spec (nt : NotifierBehavior) (now : String)
    (u : UsageInfo) (s : MonitorState) :
    (poll_weekly_fired now u s = true →
      (poll_mid_state now u s).weekly_reset_notified = false) ∧
    (poll_rate_fired now u s = true →
      (poll_mid_state now u s).rate_reset_notified = false) ∧
    (poll_weekly_fired now u s = true → poll_rate_fired now u s = true →
      (check_and_notify nt now u s).2 = ⟨true, false, false⟩ ∧
      (check_and_notify nt now u s).1.weekly_reset_notified = nt.sendBoth ∧
      (check_and_notify nt now u s).1.rate_reset_notified = nt.sendBoth) ∧
    (poll_weekly_fired now u s = true → poll_rate_fired now u s = false →
      (check_and_notify nt now u s).2 = ⟨false, true, false⟩ ∧
      (check_and_notify nt now u s).1.weekly_reset_notified = nt.sendWeekly ∧
      (check_and_notify nt now u s).1.rate_reset_notified =
        (poll_mid_state now u s).rate_reset_notified) ∧
    (poll_weekly_fired now u s = false → poll_rate_fired now u s = true →
      (check_and_notify nt now u s).2 = ⟨false, false, true⟩ ∧
      (check_and_notify nt now u s).1.rate_reset_notified = nt.sendRate ∧
      (check_and_notify nt now u s).1.weekly_reset_notified =
        (poll_mid_state now u s).weekly_reset_notified) ∧
    (poll_weekly_fired now u s = false → poll_rate_fired now u s = false →
      check_and_notify nt now u s = (poll_mid_state now u s, ⟨false, false, false⟩)) := by
  have hWclear : poll_weekly_fired now u s = true →
      (poll_mid_state now u s).weekly_reset_notified = false := by
    intro h
    unfold poll_weekly_fired at h
    rw [weekly_snd_eq] at h
    unfold poll_mid_state
    rw [rate_fst_eq]
    simp only [weekly_fst_eq, h, if_true]
  have hRclear : poll_rate_fired now u s = true →
      (poll_mid_state now u s).rate_reset_notified = false := by
    intro h
    unfold poll_rate_fired at h
    rw [rate_snd_eq] at h
    unfold poll_mid_state
    rw [rate_fst_eq]
    simp only [h, if_true]
  have hcheck : check_and_notify nt now u s =
      dispatch nt (poll_weekly_fired now u s) (poll_rate_fired now u s)
        (poll_mid_state now u s) := rfl
  refine ⟨hWclear, hRclear, ?_, ?_, ?_, ?_⟩
  · intro hw hr
    rw [hcheck, hw, hr, dispatch_true_true]
    refine ⟨rfl, ?_, ?_⟩ <;>
      cases h : nt.sendBoth <;>
        simp [mark_notified, h, hWclear hw, hRclear hr]
  · intro hw hr
    rw [hcheck, hw, hr, dispatch_true_false]
    refine ⟨rfl, ?_, ?_⟩ <;>
      cases h : nt.sendWeekly <;>
        simp [mark_notified, h, hWclear hw]
  · intro hw hr
    rw [hcheck, hw, hr, dispatch_false_true]
    refine ⟨rfl, ?_, ?_⟩ <;>
      cases h : nt.sendRate <;>
        simp [mark_notified, h, hRclear hr]
  · intro hw hr
    rw [hcheck, hw, hr, dispatch_false_false]

/-- Witness for C7: applications at concrete polls where both kinds fire
(the first scenario poll, combined notification succeeding), where only
the weekly kind fires, and where neither fires, discharging the
hypotheses of every branch. -/
theorem dispatch_notified_spec_witness :
    ((check_and_notify alwaysOkNotifier "t" snapA MonitorState.default).2 =
        ⟨true, false, false⟩ ∧
      (check_and_notify alwaysOkNotifier "t" snapA
        MonitorState.default).1.weekly_reset_notified = true ∧
      (check_and_notify alwaysOkNotifier "t" snapA
        MonitorState.default).1.rate_reset_notified = true) ∧
    ((check_and_notify alwaysOkNotifier "t" snapB
        ⟨true, 84, 166, false, 66, 3, none, true, true⟩).2 =
        ⟨false, true, false⟩) ∧
    (check_and_notify alwaysOkNotifier "t" snapA
        ⟨true, 84, 166, false, 66, 3, none, true, true⟩ =
      (poll_mid_state "t" snapA ⟨true, 84, 166, false, 66, 3, none, true, true⟩,
        ⟨false, false, false⟩)) := by
  refine ⟨?_, ?_, ?_⟩
  · have h := (dispatch_notified_spec alwaysOkNotifier "t" snapA
      MonitorState.default).2.2.1 (by decide) (by decide)
    exact ⟨h.1, h.2.1, h.2.2⟩
  · exact ((dispatch_notified_spec alwaysOkNotifier "t" snapB
      ⟨true, 84, 166, false, 66, 3, none, true, true⟩).2.2.2.1
      (by decide) (by decide)).1
  · exact (dispatch_notified_spec alwaysOkNotifier "t" snapA
      ⟨true, 84, 166, false, 66, 3, none, true, true⟩).2.2.2.2.2
      (by decide) (by decide)
